import Mathlib

/-!
Verification of the account access-control subsystem of the FYP project
backend (authRoutes: register / login / verify-mfa / forgot-password /
reset-password / logout, plus the authenticateJWT middleware).

Timestamps are modelled as `Int` milliseconds since the epoch (matching
JavaScript `Date` arithmetic).  Each route handler is embedded as a pure
function from its inputs (the account found by the DB query, the request
fields, the current time, and the nondeterministically generated fresh
values) to the HTTP response together with the account record as it is
persisted in the store when the handler returns: `save()` calls update the
persisted component, in-memory mutations that are never saved do not.
-/

namespace FypAuth

/-- Payload of a signed JSON web token: `jwt.sign({ userId, role }, secret,
{ expiresIn })` carries the account id, the role and an expiry instant. -/
structure JwtPayload where
  userId : String
  role : String
  exp : Int
deriving DecidableEq, Repr

/-- Model of an opaque JWT string: either a token produced by `jwt.sign`
with some secret, or an arbitrary non-token string. -/
inductive Token where
  | signed (payload : JwtPayload) (secret : String)
  | garbage (raw : String)
deriving DecidableEq, Repr

/-- Models `jwt.sign({userId, role}, secret, { expiresIn: '1h' })`:
a signed token whose expiry is one hour after issuance. -/
def jwtSign (userId role secret : String) (now : Int) : Token :=
  .signed { userId := userId, role := role, exp := now + 3600000 } secret

/-- Models `jwt.verify(token, secret)`: succeeds with the payload iff the
token was signed with the same secret and has not expired. -/
def jwtVerify (t : Token) (secret : String) (now : Int) : Option JwtPayload :=
  match t with
  | .signed p s => if s = secret ∧ now < p.exp then some p else none
  | .garbage _ => none

/-- Models the external bcryptjs library (`bcrypt.hash(p, 10)`) as a
deterministic stand-in for the salted one-way hash. -/
def bcryptHash (password : String) : String :=
  "bcrypt$10$" ++ password

/-- Models `bcrypt.compare(password, hash)`. -/
def bcryptCompare (password hash : String) : Bool :=
  bcryptHash password == hash

/-- The `User` mongoose document (models/User.js), restricted to the fields
of the access-control subsystem.  Optional schema fields are `Option`;
`failedLoginAttempts` and `lockoutStage` are numbers with default 0. -/
structure Account where
  id : String
  name : String
  phone : String
  email : String
  password : String
  role : String
  isVerified : Bool
  failedLoginAttempts : Nat
  temporaryLockUntil : Option Int
  permanentlyLocked : Bool
  lockoutStage : Nat
  mfaCode : Option String
  mfaExpiry : Option Int
  lastMfaVerifiedAt : Option Int
  activeSessionToken : Option Token
  activeDevice : Option String
  sessionCreatedAt : Option Int
  resetToken : Option String
  resetTokenExpiry : Option Int
deriving DecidableEq, Repr

/-- Relevant parts of `process.env`. -/
structure Env where
  jwtSecret : String
  adminEmail : Option String
  adminPassword : Option String
  adminName : Option String
  adminPhone : Option String
deriving DecidableEq, Repr

/-- Response of POST /login, mirroring the distinct JSON bodies the route
can send (status code and field shape). -/
inductive LoginResp where
  | missingFields
  | adminNotConfigured
  | invalidEmailOrPassword
  | permanentLock
  | tempLocked (remainingMinutes : Nat) (lockUntil : Int)
  | lockedNow (remainingMinutes : Nat) (lockUntil : Int)
  | invalidCredentials (remainingAttempts : Nat)
  | notVerified
  | sessionActive
  | mfaRequired (userId : String)
  | success (token : Token)
deriving DecidableEq, Repr

/-- `Math.ceil((until - now) / 1000 / 60)` for a positive remaining span. -/
def remainingMinutesOf (t now : Int) : Nat :=
  ((t - now).toNat + 59999) / 60000

/-- The admin user auto-created by POST /login when the email matches
`ADMIN_EMAIL` and no account exists (authRoutes lines 76-105). -/
def mkAdmin (env : Env) (freshId email adminPassword : String) : Account :=
  { id := freshId
    name := env.adminName.getD "Admin User"
    phone := env.adminPhone.getD "0000000000"
    email := email
    password := bcryptHash adminPassword
    role := "admin"
    isVerified := true
    failedLoginAttempts := 0
    temporaryLockUntil := none
    permanentlyLocked := false
    lockoutStage := 0
    mfaCode := none
    mfaExpiry := none
    lastMfaVerifiedAt := none
    activeSessionToken := none
    activeDevice := none
    sessionCreatedAt := none
    resetToken := none
    resetTokenExpiry := none }

/-- The expired-lock reset of authRoutes line 131: if a stage-1 temporary
lock has expired, reset the attempt counter and clear the lock ("second
chance"); the route saves this immediately. -/
def secondChanceReset (u0 : Account) (now : Int) : Account :=
  if (match u0.temporaryLockUntil with
      | some t => decide (t ≤ now)
      | none => false) && u0.lockoutStage == 1 then
    { u0 with failedLoginAttempts := 0, temporaryLockUntil := none }
  else u0

/-- Body of POST /login from the expired-lock reset (authRoutes line 131)
onward.  Reached only when the account is neither permanently locked nor
inside an active temporary-lock window.  Returns the response together
with the persisted state of the record: branches that return without
`save()` leave the persisted state as it was at the last save. -/
def loginUnlocked (env : Env) (u0 : Account)
    (password userAgent freshMfa : String) (now : Int) : LoginResp × Account :=
  -- expired temporary lock in stage 1: reset attempts for second chance (saved)
  let u1 := secondChanceReset u0 now
  if bcryptCompare password u1.password then
    if u1.isVerified then
      -- in-memory reset of the lockout fields; persisted only by a later save
      let u2 := { u1 with failedLoginAttempts := 0, temporaryLockUntil := none,
                          permanentlyLocked := false, lockoutStage := 0 }
      if u2.activeSessionToken.isSome then (.sessionActive, u1)
      else
        let mfaStillValid : Bool :=
          match u2.lastMfaVerifiedAt with
          | none => false
          | some v => decide (now ≤ v + 259200000)
        if mfaStillValid then
          let tok := jwtSign u2.id u2.role env.jwtSecret now
          (.success tok,
           { u2 with activeSessionToken := some tok,
                     activeDevice := some userAgent,
                     sessionCreatedAt := some now })
        else
          (.mfaRequired u2.id,
           { u2 with mfaCode := some freshMfa,
                     mfaExpiry := some (now + 259200000) })
    else (.notVerified, u1)
  else
    let u2 := { u1 with failedLoginAttempts := u1.failedLoginAttempts + 1 }
    if u2.lockoutStage = 0 ∧ 3 ≤ u2.failedLoginAttempts then
      (.lockedNow 5 (now + 300000),
       { u2 with temporaryLockUntil := some (now + 300000), lockoutStage := 1 })
    else if u2.lockoutStage = 1 ∧ 3 ≤ u2.failedLoginAttempts then
      (.permanentLock, { u2 with permanentlyLocked := true, lockoutStage := 2 })
    else
      (.invalidCredentials (3 - u2.failedLoginAttempts), u2)

/-- Body of POST /login from the permanent-lock check onward, operating on
the user record `u0` (either found by email or the freshly created
admin). -/
def loginCore (env : Env) (u0 : Account) (password userAgent freshMfa : String)
    (now : Int) : LoginResp × Account :=
  if u0.permanentlyLocked then (.permanentLock, u0)
  else
    match u0.temporaryLockUntil with
    | some t =>
      if now < t then (.tempLocked (remainingMinutesOf t now) t, u0)
      else loginUnlocked env u0 password userAgent freshMfa now
    | none => loginUnlocked env u0 password userAgent freshMfa now

/-- POST /login (authRoutes).  `found` is the result of
`User.findOne({email})`; `freshMfa` the randomly generated MFA code;
`freshAdminId` the id a freshly created admin account would get.  Returns
the response and the persisted account record (`none` when no record for
that email exists after the call). -/
def login (env : Env) (found : Option Account)
    (email password userAgent freshMfa freshAdminId : String) (now : Int) :
    LoginResp × Option Account :=
  if email = "" ∨ password = "" then (.missingFields, found)
  else
    match found with
    | some u =>
      let r := loginCore env u password userAgent freshMfa now
      (r.1, some r.2)
    | none =>
      if env.adminEmail = some email then
        match env.adminPassword with
        | none => (.adminNotConfigured, none)
        | some ap =>
          let admin := mkAdmin env freshAdminId email ap
          let r := loginCore env admin password userAgent freshMfa now
          (r.1, some r.2)
      else (.invalidEmailOrPassword, none)

/-- Response of POST /verify-mfa. -/
inductive VerifyMfaResp where
  | missingFields
  | invalidUser
  | sessionActive
  | invalidCode
  | expiredCode
  | success (token : Token)
deriving DecidableEq, Repr

/-- POST /verify-mfa (authRoutes lines 379-461).  `found` is
`User.findById(userId)`.  The route saves the record once, right after
clearing `mfaCode`/`mfaExpiry` and setting `lastMfaVerifiedAt`; the
session fields it assigns afterwards are never followed by a save, so the
persisted record keeps `activeSessionToken = null`. -/
def verifyMfa (env : Env) (found : Option Account)
    (mfaCode userId userAgent : String) (now : Int) :
    VerifyMfaResp × Option Account :=
  if mfaCode = "" ∨ userId = "" then (.missingFields, found)
  else
    match found with
    | none => (.invalidUser, none)
    | some u =>
      if u.activeSessionToken.isSome then (.sessionActive, some u)
      else
        match u.mfaCode with
        | none => (.invalidCode, some u)
        | some stored =>
          if stored ≠ mfaCode then (.invalidCode, some u)
          else if (match u.mfaExpiry with
                   | some e => decide (e < now)
                   | none => false) then (.expiredCode, some u)
          else
            -- cleared code + trust-window update, persisted by `user.save()`
            let u1 := { u with mfaCode := none, mfaExpiry := none,
                               lastMfaVerifiedAt := some now }
            -- the session fields set after this save are never persisted
            (.success (jwtSign u.id u.role env.jwtSecret now), some u1)

/-- Response of POST /logout. -/
inductive LogoutResp where
  | userNotFound
  | success
deriving DecidableEq, Repr

/-- POST /logout (authRoutes lines 572-592): clears the session fields. -/
def logout (found : Option Account) : LogoutResp × Option Account :=
  match found with
  | none => (.userNotFound, none)
  | some u =>
    (.success, some { u with activeSessionToken := none, activeDevice := none,
                             sessionCreatedAt := none })

/-- Response of POST /forgot-password. -/
inductive ForgotResp where
  | missingEmail
  | genericOk
  | emailSendFailed
deriving DecidableEq, Repr

/-- POST /forgot-password (authRoutes lines 464-508).  The reset token is
saved before the email delivery is attempted, so the persisted state is
the same whether delivery succeeds or fails. -/
def forgotPassword (found : Option Account) (email freshToken : String)
    (now : Int) (emailDeliveryOk : Bool) : ForgotResp × Option Account :=
  if email = "" then (.missingEmail, found)
  else
    match found with
    | none => (.genericOk, none)
    | some u =>
      let u1 := { u with resetToken := some freshToken,
                         resetTokenExpiry := some (now + 900000) }
      if emailDeliveryOk then (.genericOk, some u1)
      else (.emailSendFailed, some u1)

/-- Response of POST /reset-password. -/
inductive ResetResp where
  | missingFields
  | passwordMismatch
  | passwordTooShort
  | invalidOrExpiredToken
  | success
deriving DecidableEq, Repr

/-- The mongo query predicate
`{ resetToken: token, resetTokenExpiry: { $gt: Date.now() } }`. -/
def resetTokenValid (a : Account) (token : String) (now : Int) : Bool :=
  a.resetToken == some token &&
    match a.resetTokenExpiry with
    | some e => decide (now < e)
    | none => false

/-- `User.findOne({resetToken, resetTokenExpiry: {$gt: now}})` over the
store. -/
def findByResetToken (db : List Account) (token : String) (now : Int) :
    Option Account :=
  db.find? (fun a => resetTokenValid a token now)

/-- `user.save()` over the whole store: replace the record with the same
id. -/
def saveAccount (db : List Account) (u : Account) : List Account :=
  db.map (fun a => if a.id = u.id then u else a)

/-- POST /reset-password (authRoutes lines 511-569), over the full store so
that "changes no account" is expressible. -/
def resetPassword (db : List Account)
    (token newPassword confirmPassword : String) (now : Int) :
    ResetResp × List Account :=
  if token = "" ∨ newPassword = "" ∨ confirmPassword = "" then (.missingFields, db)
  else if newPassword ≠ confirmPassword then (.passwordMismatch, db)
  else if newPassword.length < 6 then (.passwordTooShort, db)
  else
    match findByResetToken db token now with
    | none => (.invalidOrExpiredToken, db)
    | some u =>
      let u1 := { u with password := bcryptHash newPassword,
                         lastMfaVerifiedAt := none,
                         resetToken := none,
                         resetTokenExpiry := none,
                         failedLoginAttempts := 0,
                         temporaryLockUntil := none,
                         permanentlyLocked := false,
                         lockoutStage := 0 }
      (.success, saveAccount db u1)

/-- Response of POST /register. -/
inductive RegisterResp where
  | missingFields
  | emailInUse
  | success
deriving DecidableEq, Repr

/-- A freshly registered user: unverified, role user, every other field at
its schema default. -/
def newUser (freshId name phone email hashedPassword : String) : Account :=
  { id := freshId
    name := name
    phone := phone
    email := email
    password := hashedPassword
    role := "user"
    isVerified := false
    failedLoginAttempts := 0
    temporaryLockUntil := none
    permanentlyLocked := false
    lockoutStage := 0
    mfaCode := none
    mfaExpiry := none
    lastMfaVerifiedAt := none
    activeSessionToken := none
    activeDevice := none
    sessionCreatedAt := none
    resetToken := none
    resetTokenExpiry := none }

/-- POST /register (authRoutes lines 12-61). `found` is
`User.findOne({email})`. -/
def register (found : Option Account)
    (name phone email password freshId : String) : RegisterResp × Option Account :=
  if name = "" ∨ email = "" ∨ password = "" ∨ phone = "" then (.missingFields, found)
  else
    match found with
    | some u => (.emailInUse, some u)
    | none => (.success, some (newUser freshId name phone email (bcryptHash password)))

/-- Result of the authenticateJWT middleware. -/
inductive AuthResult where
  | missingHeader
  | invalidToken
  | userNotFound
  | sessionInvalid
  | authenticated (payload : JwtPayload)
deriving DecidableEq, Repr

/-- middleware/authenticateJWT (session-checking version): the bearer token
must verify cryptographically and equal the account record's stored
`activeSessionToken`.  `bearer` is the token extracted from the
Authorization header (`none` when the header is missing or malformed);
`found` is `User.findById(payload.userId)`. -/
def authenticateJWT (env : Env) (bearer : Option Token)
    (found : Option Account) (now : Int) : AuthResult :=
  match bearer with
  | none => .missingHeader
  | some token =>
    match jwtVerify token env.jwtSecret now with
    | none => .invalidToken
    | some payload =>
      match found with
      | none => .userNotFound
      | some dbUser =>
        if dbUser.activeSessionToken ≠ some token then .sessionInvalid
        else .authenticated payload

/-- The data-model invariant that `mfaCode` and `mfaExpiry` are both null
or both set. -/
def mfaPaired (a : Account) : Prop :=
  a.mfaCode.isSome = a.mfaExpiry.isSome

instance (a : Account) : Decidable (mfaPaired a) := by
  unfold mfaPaired; infer_instance

/-! Concrete fixtures used by witnesses and counterexamples. -/

/-- An environment with no admin auto-creation configured. -/
def env0 : Env :=
  { jwtSecret := "s", adminEmail := none, adminPassword := none,
    adminName := none, adminPhone := none }

/-- An environment with the admin auto-creation variables set. -/
def envAdmin : Env :=
  { jwtSecret := "s", adminEmail := some "admin@x.com",
    adminPassword := some "secretpw", adminName := none, adminPhone := none }

/-- A verified account in the open lockout state with a pending MFA
challenge and no active session. -/
def acct0 : Account :=
  { id := "u1", name := "n", phone := "p", email := "a@x.com",
    password := bcryptHash "pw", role := "user", isVerified := true,
    failedLoginAttempts := 0, temporaryLockUntil := none,
    permanentlyLocked := false, lockoutStage := 0,
    mfaCode := some "123456", mfaExpiry := some 720000000,
    lastMfaVerifiedAt := none, activeSessionToken := none,
    activeDevice := none, sessionCreatedAt := none,
    resetToken := none, resetTokenExpiry := none }

/-- C1: after the described verifyMfa → login scenario the spec requires
the session token to be persisted on the account so the second login
fails with SessionAlreadyActive.  The route assigns the session fields
only after its single `save()` call and never saves again, so the
persisted record keeps `activeSessionToken = null` and the subsequent
correct-credential login succeeds instead of being blocked.  This theorem
evaluates the embedded code at the failing input. -/
theorem c1_verify_mfa_session_not_persisted :
    (verifyMfa env0 (some acct0) "123456" "u1" "ua" 1000).1
      = .success (jwtSign "u1" "user" "s" 1000)
    ∧ ((verifyMfa env0 (some acct0) "123456" "u1" "ua" 1000).2.map
        (fun a => a.activeSessionToken)) = some none
    ∧ (login env0 ((verifyMfa env0 (some acct0) "123456" "u1" "ua" 1000).2)
        "a@x.com" "pw" "ua" "999999" "adm" 2000).1
      = .success (jwtSign "u1" "user" "s" 2000)
    ∧ (login env0 ((verifyMfa env0 (some acct0) "123456" "u1" "ua" 1000).2)
        "a@x.com" "pw" "ua" "999999" "adm" 2000).1
      ≠ .sessionActive := by
  refine ⟨by decide, by decide, by decide, by decide⟩

/-- C2: the middleware authenticates a presented bearer token only if it
verifies cryptographically and equals the account's stored
activeSessionToken; a cryptographically valid token differing from the
stored one is rejected as an invalid session. -/
theorem c2_validate_requires_signature_and_stored_token
    (env : Env) (tok : Token) (a : Account) (now : Int) :
    (∀ p, authenticateJWT env (some tok) (some a) now = .authenticated p →
        jwtVerify tok env.jwtSecret now = some p ∧
          a.activeSessionToken = some tok)
    ∧ (∀ p, jwtVerify tok env.jwtSecret now = some p →
        a.activeSessionToken ≠ some tok →
        authenticateJWT env (some tok) (some a) now = .sessionInvalid) := by
  constructor
  · intro p h
    cases hv : jwtVerify tok env.jwtSecret now with
    | none => simp [authenticateJWT, hv] at h
    | some q =>
      by_cases hs : a.activeSessionToken = some tok
      · have hqp : q = p := by simpa [authenticateJWT, hv, hs] using h
        exact ⟨congrArg some hqp, hs⟩
      · simp [authenticateJWT, hv, hs] at h
  · intro p hv hs
    simp [authenticateJWT, hv, hs]

/-- A signed token that verifies under `env0`. -/
def tokA : Token := .signed { userId := "u1", role := "user", exp := 3600000 } "s"

theorem c2_witness :
    authenticateJWT env0 (some tokA)
      (some { acct0 with activeSessionToken := some (.garbage "other") }) 0
      = .sessionInvalid :=
  (c2_validate_requires_signature_and_stored_token env0 tokA
      { acct0 with activeSessionToken := some (.garbage "other") } 0).2
    { userId := "u1", role := "user", exp := 3600000 } (by decide) (by decide)

/-- C3: from the open lockout state (stage 0, no pending lock), a failed
password check increments failedLoginAttempts; the call registering the
3rd failure itself sets a 5-minute temporary lock and moves to stage 1;
any attempt while the lock is active is rejected with the remaining
minutes and leaves the stored record unchanged. -/
theorem c3_stage0_lockout_progression
    (env : Env) (a : Account) (email pw ua mfa fid : String) (now : Int)
    (hstage : a.lockoutStage = 0) (hperm : a.permanentlyLocked = false)
    (hlock : a.temporaryLockUntil = none)
    (hm : bcryptCompare pw a.password = false)
    (he : email ≠ "") (hp : pw ≠ "") :
    ((login env (some a) email pw ua mfa fid now).2.map
        Account.failedLoginAttempts) = some (a.failedLoginAttempts + 1)
    ∧ (a.failedLoginAttempts = 2 →
        login env (some a) email pw ua mfa fid now
          = (.lockedNow 5 (now + 300000),
             some { a with failedLoginAttempts := 3,
                           temporaryLockUntil := some (now + 300000),
                           lockoutStage := 1 }))
    ∧ (∀ (b : Account) (pw2 : String) (now2 t : Int),
        pw2 ≠ "" → b.permanentlyLocked = false →
        b.temporaryLockUntil = some t → now2 < t →
        login env (some b) email pw2 ua mfa fid now2
          = (.tempLocked (remainingMinutesOf t now2) t, some b)) := by
  refine ⟨?_, ?_, ?_⟩
  · simp only [login, loginCore, loginUnlocked, secondChanceReset]
    rw [if_neg (by simp [he, hp])]
    by_cases h3 : 3 ≤ a.failedLoginAttempts + 1 <;>
      simp [h3, hstage, hlock, hperm, hm]
  · intro hf
    simp only [login, loginCore, loginUnlocked, secondChanceReset]
    rw [if_neg (by simp [he, hp])]
    simp [hlock, hperm, hstage, hm, hf]
  · intro b pw2 now2 t hp2 hbperm hbt hn2
    simp only [login, loginCore]
    rw [if_neg (by simp [he, hp2])]
    simp [hbperm, hbt, hn2]

theorem c3_witness :
    ((login env0 (some { acct0 with failedLoginAttempts := 1 })
        "a@x.com" "bad" "ua" "m" "f" 1000).2.map
          Account.failedLoginAttempts) = some 2 := by
  have h := (c3_stage0_lockout_progression env0
      { acct0 with failedLoginAttempts := 1 } "a@x.com" "bad" "ua" "m" "f" 1000
      (by decide) (by decide) (by decide) (by decide) (by decide) (by decide)).1
  simpa using h

/-- C4: after the 5-minute lock of stage 1 has expired, the next attempt
first resets failedLoginAttempts and clears temporaryLockUntil while
staying in stage 1, so a wrong password at that point yields
InvalidCredentials with remainingAttempts = 2; three further failures
from the reset point make the lock permanent (stage 2). -/
theorem c4_second_chance_after_temporary_lock
    (env : Env) (a : Account) (email pw ua mfa fid : String) (now t : Int)
    (hstage : a.lockoutStage = 1) (hperm : a.permanentlyLocked = false)
    (hlock : a.temporaryLockUntil = some t) (hexp : t ≤ now)
    (hm : bcryptCompare pw a.password = false)
    (he : email ≠ "") (hp : pw ≠ "") :
    login env (some a) email pw ua mfa fid now
      = (.invalidCredentials 2,
         some { a with failedLoginAttempts := 1, temporaryLockUntil := none })
    ∧ (∀ (b : Account) (pw2 : String) (now2 : Int),
        pw2 ≠ "" → b.lockoutStage = 1 → b.permanentlyLocked = false →
        b.temporaryLockUntil = none → b.failedLoginAttempts = 2 →
        bcryptCompare pw2 b.password = false →
        login env (some b) email pw2 ua mfa fid now2
          = (.permanentLock,
             some { b with failedLoginAttempts := 3,
                           permanentlyLocked := true, lockoutStage := 2 })) := by
  constructor
  · simp only [login, loginCore, loginUnlocked, secondChanceReset]
    rw [if_neg (by simp [he, hp])]
    simp [hlock, hperm, hstage, hm, hexp, not_lt.mpr hexp]
  · intro b pw2 now2 hp2 hbstage hbperm hbl hbf hbm
    simp only [login, loginCore, loginUnlocked, secondChanceReset]
    rw [if_neg (by simp [he, hp2])]
    simp [hbl, hbperm, hbstage, hbm, hbf]

theorem c4_witness :
    login env0
      (some { acct0 with failedLoginAttempts := 3, lockoutStage := 1,
                         temporaryLockUntil := some 301000 })
      "a@x.com" "bad" "ua" "m" "f" 400000
      = (.invalidCredentials 2,
         some { acct0 with failedLoginAttempts := 1, lockoutStage := 1,
                           temporaryLockUntil := none }) := by
  have h := (c4_second_chance_after_temporary_lock env0
      { acct0 with failedLoginAttempts := 3, lockoutStage := 1,
                   temporaryLockUntil := some 301000 }
      "a@x.com" "bad" "ua" "m" "f" 400000 301000
      (by decide) (by decide) (by decide) (by decide) (by decide) (by decide)
      (by decide)).1
  simpa using h

/-- C5: while permanentlyLocked is set, login rejects unconditionally and
persists nothing, and no operation other than a successful resetPassword
clears the flag; resetPassword resets all four lockout fields. -/
theorem c5_permanent_lock_exits_only_via_reset
    (a : Account) (hperm : a.permanentlyLocked = true) :
    (∀ (env : Env) (email pw ua mfa fid : String) (now : Int),
        (login env (some a) email pw ua mfa fid now).2 = some a)
    ∧ (∀ (env : Env) (email pw ua mfa fid : String) (now : Int),
        email ≠ "" → pw ≠ "" →
        (login env (some a) email pw ua mfa fid now).1 = .permanentLock)
    ∧ (∀ (env : Env) (code uid ua : String) (now : Int) (a' : Account),
        (verifyMfa env (some a) code uid ua now).2 = some a' →
        a'.permanentlyLocked = true)
    ∧ (∀ a', (logout (some a)).2 = some a' → a'.permanentlyLocked = true)
    ∧ (∀ (email ft : String) (now : Int) (ok : Bool) (a' : Account),
        (forgotPassword (some a) email ft now ok).2 = some a' →
        a'.permanentlyLocked = true)
    ∧ (∀ (db : List Account) (token np : String) (now : Int) (u : Account),
        token ≠ "" → np ≠ "" → 6 ≤ np.length →
        findByResetToken db token now = some u →
        resetPassword db token np np now
          = (.success,
             saveAccount db
               { u with password := bcryptHash np, lastMfaVerifiedAt := none,
                        resetToken := none, resetTokenExpiry := none,
                        failedLoginAttempts := 0, temporaryLockUntil := none,
                        permanentlyLocked := false, lockoutStage := 0 })) := by
  refine ⟨?_, ?_, ?_, ?_, ?_, ?_⟩
  · intro env email pw ua mfa fid now
    by_cases h0 : email = "" ∨ pw = ""
    · simp [login, h0]
    · simp [login, h0, loginCore, hperm]
  · intro env email pw ua mfa fid now he hp
    simp [login, he, hp, loginCore, hperm]
  · intro env code uid ua now a' h
    simp only [verifyMfa] at h
    repeat' split at h
    all_goals simp only [Option.some.injEq] at h
    all_goals (rw [← h]; simp [hperm])
  · intro a' h
    simp only [logout, Option.some.injEq] at h
    subst h
    simpa using hperm
  · intro email ft now ok a' h
    simp only [forgotPassword] at h
    repeat' split at h
    all_goals simp only [Option.some.injEq] at h
    all_goals (rw [← h]; simp [hperm])
  · intro db token np now u ht hn hl hfind
    simp only [resetPassword]
    rw [if_neg (by simp [ht, hn])]
    rw [if_neg (by simp)]
    rw [if_neg (by omega)]
    rw [hfind]

theorem c5_witness :
    ((login env0 (some { acct0 with permanentlyLocked := true, lockoutStage := 2 })
        "a@x.com" "pw" "ua" "m" "f" 1000).2
      = some { acct0 with permanentlyLocked := true, lockoutStage := 2 })
    ∧ (login env0 (some { acct0 with permanentlyLocked := true, lockoutStage := 2 })
        "a@x.com" "pw" "ua" "m" "f" 1000).1 = .permanentLock := by
  have h := c5_permanent_lock_exits_only_via_reset
      { acct0 with permanentlyLocked := true, lockoutStage := 2 } (by decide)
  exact ⟨h.1 env0 "a@x.com" "pw" "ua" "m" "f" 1000,
         h.2.1 env0 "a@x.com" "pw" "ua" "m" "f" 1000 (by decide) (by decide)⟩

/-- C6 (amended): the trust window is inclusive of its endpoint — a
correct-password login at or before lastMfaVerifiedAt + 72h skips the MFA
challenge and proceeds directly to session issuance; only a login
strictly after that instant issues a new challenge. -/
theorem c6_trust_window_boundary
    (env : Env) (a : Account) (email pw ua mfa fid : String) (v now : Int)
    (hv : a.isVerified = true) (hs : a.activeSessionToken = none)
    (hperm : a.permanentlyLocked = false) (hlock : a.temporaryLockUntil = none)
    (hm : bcryptCompare pw a.password = true)
    (hmfa : a.lastMfaVerifiedAt = some v)
    (he : email ≠ "") (hp : pw ≠ "") :
    (now ≤ v + 259200000 →
        (login env (some a) email pw ua mfa fid now).1
          = .success (jwtSign a.id a.role env.jwtSecret now))
    ∧ (v + 259200000 < now →
        (login env (some a) email pw ua mfa fid now).1 = .mfaRequired a.id) := by
  constructor
  · intro hle
    simp only [login, loginCore, loginUnlocked, secondChanceReset]
    rw [if_neg (by simp [he, hp])]
    simp [hlock, hperm, hm, hv, hs, hmfa, hle]
  · intro hgt
    simp only [login, loginCore, loginUnlocked, secondChanceReset]
    rw [if_neg (by simp [he, hp])]
    simp [hlock, hperm, hm, hv, hs, hmfa, not_le.mpr hgt]

/-- A verified account with a still-running MFA trust window that started
at time 0 and no pending challenge. -/
def acct6 : Account :=
  { acct0 with mfaCode := none, mfaExpiry := none, lastMfaVerifiedAt := some 0 }

theorem c6_witness :
    ((login env0 (some acct6) "a@x.com" "pw" "ua" "m" "f" 259199999).1
      = .success (jwtSign "u1" "user" "s" 259199999))
    ∧ ((login env0 (some acct6) "a@x.com" "pw" "ua" "m" "f" 259200001).1
      = .mfaRequired "u1") := by
  have h1 := (c6_trust_window_boundary env0 acct6 "a@x.com" "pw" "ua" "m" "f"
      0 259199999 (by decide) (by decide) (by decide) (by decide) (by decide)
      (by decide) (by decide) (by decide)).1 (by decide)
  have h2 := (c6_trust_window_boundary env0 acct6 "a@x.com" "pw" "ua" "m" "f"
      0 259200001 (by decide) (by decide) (by decide) (by decide) (by decide)
      (by decide) (by decide) (by decide)).2 (by decide)
  exact ⟨h1, h2⟩

/-- C6 as written claims a login exactly at lastMfaVerifiedAt + 72h still
requires the MFA re-challenge; the code requires a new challenge only
when `now > mfaValidUntil`, so at exactly +72h the challenge is skipped
and a session token is issued directly. -/
theorem c6_boundary_counterexample :
    (login env0 (some acct6) "a@x.com" "pw" "ua" "999999" "f" 259200000).1
      = .success (jwtSign "u1" "user" "s" 259200000)
    ∧ (login env0 (some acct6) "a@x.com" "pw" "ua" "999999" "f" 259200000).1
      ≠ .mfaRequired "u1" := by
  exact ⟨by decide, by decide⟩

/-- On a successful MFA verification, the persisted record has the code
and expiry cleared and the trust window started, all in the single save
the route performs. -/
theorem verifyMfa_success_eq
    (env : Env) (a : Account) (code uid ua : String) (now : Int)
    (hc : code ≠ "") (hu : uid ≠ "") (hs : a.activeSessionToken = none)
    (hm : a.mfaCode = some code)
    (he : ∀ e, a.mfaExpiry = some e → now ≤ e) :
    verifyMfa env (some a) code uid ua now
      = (.success (jwtSign a.id a.role env.jwtSecret now),
         some { a with mfaCode := none, mfaExpiry := none,
                       lastMfaVerifiedAt := some now }) := by
  simp only [verifyMfa]
  rw [if_neg (by simp [hc, hu])]
  cases hx : a.mfaExpiry with
  | none => simp [hs, hm]
  | some e => simp [hs, hm, hx, not_lt.mpr (he e hx)]

@[simp] theorem secondChanceReset_mfaCode (u : Account) (now : Int) :
    (secondChanceReset u now).mfaCode = u.mfaCode := by
  unfold secondChanceReset
  repeat' split
  all_goals rfl

@[simp] theorem secondChanceReset_mfaExpiry (u : Account) (now : Int) :
    (secondChanceReset u now).mfaExpiry = u.mfaExpiry := by
  unfold secondChanceReset
  repeat' split
  all_goals rfl

/-- The record persisted by the unlocked login body never breaks the
pairing of mfaCode and mfaExpiry. -/
theorem loginUnlocked_snd_mfaPaired (env : Env) (b : Account)
    (pw ua mf : String) (now : Int) (hb : mfaPaired b) :
    mfaPaired (loginUnlocked env b pw ua mf now).2 := by
  unfold loginUnlocked
  dsimp only
  repeat' split
  all_goals simp_all [mfaPaired]

/-- The record persisted by the login body never breaks the pairing of
mfaCode and mfaExpiry. -/
theorem loginCore_snd_mfaPaired (env : Env) (b : Account)
    (pw ua mf : String) (now : Int) (hb : mfaPaired b) :
    mfaPaired (loginCore env b pw ua mf now).2 := by
  unfold loginCore
  repeat' split
  all_goals
    first
      | exact hb
      | exact loginUnlocked_snd_mfaPaired env b pw ua mf now hb

/-- C7: a stored MFA code is single-use — the successful verify clears
mfaCode and mfaExpiry in the same persisted update that sets
lastMfaVerifiedAt, a second submission of the same code fails with
InvalidCode, and every operation preserves the both-null-or-both-set
pairing of mfaCode and mfaExpiry. -/
theorem c7_mfa_code_single_use
    (env : Env) (a : Account) (code uid ua : String) (now : Int)
    (hc : code ≠ "") (hu : uid ≠ "") (hs : a.activeSessionToken = none)
    (hm : a.mfaCode = some code)
    (he : ∀ e, a.mfaExpiry = some e → now ≤ e) :
    verifyMfa env (some a) code uid ua now
      = (.success (jwtSign a.id a.role env.jwtSecret now),
         some { a with mfaCode := none, mfaExpiry := none,
                       lastMfaVerifiedAt := some now })
    ∧ (∀ (ua2 : String) (now2 : Int),
        verifyMfa env (verifyMfa env (some a) code uid ua now).2 code uid ua2 now2
          = (.invalidCode, (verifyMfa env (some a) code uid ua now).2))
    ∧ (∀ (env2 : Env) (b : Account) (em pw ua2 mf fid : String)
        (n2 : Int) (b' : Account), mfaPaired b →
        (login env2 (some b) em pw ua2 mf fid n2).2 = some b' → mfaPaired b')
    ∧ (∀ (env2 : Env) (em pw ua2 mf fid : String) (n2 : Int) (b' : Account),
        (login env2 none em pw ua2 mf fid n2).2 = some b' → mfaPaired b')
    ∧ (∀ (env2 : Env) (b : Account) (cd ud ua2 : String) (n2 : Int)
        (b' : Account), mfaPaired b →
        (verifyMfa env2 (some b) cd ud ua2 n2).2 = some b' → mfaPaired b')
    ∧ (∀ (b b' : Account), mfaPaired b →
        (logout (some b)).2 = some b' → mfaPaired b')
    ∧ (∀ (b : Account) (em ft : String) (n2 : Int) (ok : Bool) (b' : Account),
        mfaPaired b →
        (forgotPassword (some b) em ft n2 ok).2 = some b' → mfaPaired b')
    ∧ (∀ (nm ph em pw fid : String) (b' : Account),
        (register none nm ph em pw fid).2 = some b' → mfaPaired b')
    ∧ (∀ (db : List Account) (tk np cf : String) (n2 : Int) (b' : Account),
        (∀ b ∈ db, mfaPaired b) →
        b' ∈ (resetPassword db tk np cf n2).2 → mfaPaired b') := by
  refine ⟨verifyMfa_success_eq env a code uid ua now hc hu hs hm he,
          ?_, ?_, ?_, ?_, ?_, ?_, ?_, ?_⟩
  · intro ua2 now2
    rw [verifyMfa_success_eq env a code uid ua now hc hu hs hm he]
    simp [verifyMfa, hc, hu, hs]
  · intro env2 b em pw ua2 mf fid n2 b' hb h
    by_cases h0 : em = "" ∨ pw = ""
    · simp only [login, if_pos h0, Option.some.injEq] at h
      rw [← h]; exact hb
    · simp only [login, if_neg h0, Option.some.injEq] at h
      rw [← h]
      exact loginCore_snd_mfaPaired env2 b pw ua2 mf n2 hb
  · intro env2 em pw ua2 mf fid n2 b' h
    by_cases h0 : em = "" ∨ pw = ""
    · simp [login, h0] at h
    · by_cases hea : env2.adminEmail = some em
      · cases hap : env2.adminPassword with
        | none => simp [login, h0, hea, hap] at h
        | some ap =>
          simp only [login, if_neg h0, hea, hap, if_pos, Option.some.injEq,
            if_true] at h
          rw [← h]
          exact loginCore_snd_mfaPaired env2 (mkAdmin env2 fid em ap) pw ua2
            mf n2 (by simp [mfaPaired, mkAdmin])
      · simp [login, h0, hea] at h
  · intro env2 b cd ud ua2 n2 b' hb h
    simp only [verifyMfa] at h
    repeat' split at h
    all_goals simp only [Option.some.injEq] at h
    all_goals (rw [← h]; simp_all [mfaPaired])
  · intro b b' hb h
    simp only [logout, Option.some.injEq] at h
    rw [← h]
    simpa [mfaPaired] using hb
  · intro b em ft n2 ok b' hb h
    simp only [forgotPassword] at h
    repeat' split at h
    all_goals simp only [Option.some.injEq] at h
    all_goals (rw [← h]; simp_all [mfaPaired])
  · intro nm ph em pw fid b' h
    simp only [register] at h
    repeat' split at h
    all_goals simp only [Option.some.injEq, reduceCtorEq] at h
    all_goals (rw [← h]; simp [mfaPaired, newUser])
  · intro db tk np cf n2 b' hdb h
    simp only [resetPassword] at h
    repeat' split at h
    · exact hdb b' h
    · exact hdb b' h
    · exact hdb b' h
    · exact hdb b' h
    · rename_i u hfind
      simp only [saveAccount, List.mem_map] at h
      obtain ⟨c, hc2, hc3⟩ := h
      by_cases hid : c.id = u.id
      · rw [← hc3]
        simp only [hid, if_pos rfl]
        have hu2 : mfaPaired u := hdb u (List.mem_of_find?_eq_some hfind)
        simpa [mfaPaired] using hu2
      · rw [← hc3]
        simp only [if_neg hid]
        exact hdb c hc2

theorem c7_witness :
    verifyMfa env0 (some acct0) "123456" "u1" "ua" 1000
      = (.success (jwtSign "u1" "user" "s" 1000),
         some { acct0 with mfaCode := none, mfaExpiry := none,
                           lastMfaVerifiedAt := some 1000 }) :=
  (c7_mfa_code_single_use env0 acct0 "123456" "u1" "ua" 1000
      (by decide) (by decide) (by decide) (by decide)
      (by intro e he2; simp [acct0] at he2; omega)).1

/-- C8 (amended): for every login whose email matches no stored account
and is not the configured admin auto-creation email, the call fails with
the invalid-credentials response, creates no account, and the response is
the same constant shape for every such email. -/
theorem c8_unknown_email_constant_response
    (env : Env) (email pw ua mfa fid : String) (now : Int)
    (he : email ≠ "") (hp : pw ≠ "")
    (hadmin : env.adminEmail ≠ some email) :
    login env none email pw ua mfa fid now = (.invalidEmailOrPassword, none) := by
  simp only [login]
  rw [if_neg (by simp [he, hp])]
  simp [hadmin]

theorem c8_witness :
    login env0 none "nosuch@x.com" "pw" "ua" "m" "f" 0
      = (.invalidEmailOrPassword, none) :=
  c8_unknown_email_constant_response env0 "nosuch@x.com" "pw" "ua" "m" "f" 0
    (by decide) (by decide) (by decide)

/-- C8 as written says a login whose email matches no stored account fails
with InvalidCredentials and creates no account; with
ADMIN_EMAIL / ADMIN_PASSWORD configured, a login with the admin email and
the admin password auto-creates and persists an admin account and returns
an MFA challenge instead. -/
theorem c8_admin_autocreate_counterexample :
    (login envAdmin none "admin@x.com" "secretpw" "ua" "654321" "newid" 0).1
      = .mfaRequired "newid"
    ∧ ((login envAdmin none "admin@x.com" "secretpw" "ua" "654321" "newid" 0).2).isSome
      = true
    ∧ (login envAdmin none "admin@x.com" "secretpw" "ua" "654321" "newid" 0).1
      ≠ .invalidEmailOrPassword :=
  ⟨by decide, by decide, by decide⟩

/-- A correct password always compares true against its own stored hash. -/
theorem bcryptCompare_hash (p : String) :
    bcryptCompare p (bcryptHash p) = true := by
  simp [bcryptCompare]

/-- C9: resetPassword with no matching unexpired token fails and changes
no account; with a match it re-hashes the password, clears the reset
token pair, resets the lockout fields, and nulls lastMfaVerifiedAt, so
the first correct-password login after the reset requires MFA. -/
theorem c9_reset_password
    (db : List Account) (token np : String) (now : Int)
    (ht : token ≠ "") (hn : np ≠ "") (hl : 6 ≤ np.length) :
    ((∀ b ∈ db, resetTokenValid b token now = false) →
        resetPassword db token np np now = (.invalidOrExpiredToken, db))
    ∧ (∀ u, findByResetToken db token now = some u →
        resetPassword db token np np now
          = (.success,
             saveAccount db
               { u with password := bcryptHash np, lastMfaVerifiedAt := none,
                        resetToken := none, resetTokenExpiry := none,
                        failedLoginAttempts := 0, temporaryLockUntil := none,
                        permanentlyLocked := false, lockoutStage := 0 }))
    ∧ (∀ (env : Env) (u : Account) (ua mfa fid : String) (now2 : Int),
        findByResetToken db token now = some u →
        u.isVerified = true → u.activeSessionToken = none → u.email ≠ "" →
        (login env
            (some { u with password := bcryptHash np,
                           lastMfaVerifiedAt := none,
                           resetToken := none, resetTokenExpiry := none,
                           failedLoginAttempts := 0, temporaryLockUntil := none,
                           permanentlyLocked := false, lockoutStage := 0 })
            u.email np ua mfa fid now2).1 = .mfaRequired u.id) := by
  refine ⟨?_, ?_, ?_⟩
  · intro hdb
    have hnone : findByResetToken db token now = none := by
      unfold findByResetToken
      exact List.find?_eq_none.mpr (by intro x hx; simp [hdb x hx])
    simp only [resetPassword]
    rw [if_neg (by simp [ht, hn])]
    rw [if_neg (by simp)]
    rw [if_neg (by omega)]
    rw [hnone]
  · intro u hf
    simp only [resetPassword]
    rw [if_neg (by simp [ht, hn])]
    rw [if_neg (by simp)]
    rw [if_neg (by omega)]
    rw [hf]
  · intro env u ua mfa fid now2 hf hv hs hem
    simp only [login, loginCore, loginUnlocked, secondChanceReset]
    rw [if_neg (by simp [hem, hn])]
    simp [hv, hs, bcryptCompare_hash]

/-- An account holding a live password-reset token. -/
def acctR : Account :=
  { acct0 with mfaCode := none, mfaExpiry := none,
               resetToken := some "rtok", resetTokenExpiry := some 1000000 }

theorem c9_witness :
    resetPassword [acctR] "rtok" "newpass" "newpass" 500
      = (.success,
         saveAccount [acctR]
           { acctR with password := bcryptHash "newpass",
                        lastMfaVerifiedAt := none,
                        resetToken := none, resetTokenExpiry := none,
                        failedLoginAttempts := 0, temporaryLockUntil := none,
                        permanentlyLocked := false, lockoutStage := 0 }) :=
  (c9_reset_password [acctR] "rtok" "newpass" 500
      (by decide) (by decide) (by decide)).2.1 acctR (by decide)

/-- C10 (amended): when the password matches, the account is verified with
a session active, and the account carries no temporary or permanent lock,
login returns SessionAlreadyActive and the persisted record is exactly
the prior one — the in-memory reset of the lockout fields on the
correct-password path is never saved.  (When a stage-1 account with an
expired temporary lock reaches the same return, the expiry pre-reset has
already been saved, so the record does change; see the counterexample.) -/
theorem c10_session_active_no_persist
    (env : Env) (a : Account) (email pw ua mfa fid : String) (now : Int)
    (hm : bcryptCompare pw a.password = true) (hv : a.isVerified = true)
    (hs : a.activeSessionToken.isSome = true)
    (hperm : a.permanentlyLocked = false) (hlock : a.temporaryLockUntil = none)
    (he : email ≠ "") (hp : pw ≠ "") :
    login env (some a) email pw ua mfa fid now = (.sessionActive, some a) := by
  simp only [login, loginCore, loginUnlocked, secondChanceReset]
  rw [if_neg (by simp [he, hp])]
  simp [hlock, hperm, hm, hv, hs]

/-- A verified account with an active session that acquired a stage-1
temporary lock (now expired) from wrong-password attempts made while the
session was live. -/
def acct10 : Account :=
  { acct0 with mfaCode := none, mfaExpiry := none, failedLoginAttempts := 3,
               lockoutStage := 1, temporaryLockUntil := some 300000,
               activeSessionToken := some (.garbage "tok") }

theorem c10_witness :
    login env0
      (some { acct0 with mfaCode := none, mfaExpiry := none,
                         activeSessionToken := some (.garbage "tok") })
      "a@x.com" "pw" "ua" "m" "f" 1000
      = (.sessionActive,
         some { acct0 with mfaCode := none, mfaExpiry := none,
                           activeSessionToken := some (.garbage "tok") }) :=
  c10_session_active_no_persist env0
    { acct0 with mfaCode := none, mfaExpiry := none,
                 activeSessionToken := some (.garbage "tok") }
    "a@x.com" "pw" "ua" "m" "f" 1000
    (by decide) (by decide) (by decide) (by decide) (by decide) (by decide)
    (by decide)

/-- C10 as written quantifies over every correct-password login on a
verified account with a session active and asserts the stored record is
unchanged.  For a stage-1 account whose temporary lock has expired, the
pre-password reset is saved before the SessionAlreadyActive return: the
response is SessionAlreadyActive but the persisted failedLoginAttempts
drops from 3 to 0 and temporaryLockUntil is cleared. -/
theorem c10_expired_lock_reset_persisted :
    (login env0 (some acct10) "a@x.com" "pw" "ua" "m" "f" 600000).1
      = .sessionActive
    ∧ ((login env0 (some acct10) "a@x.com" "pw" "ua" "m" "f" 600000).2.map
        Account.failedLoginAttempts) = some 0
    ∧ acct10.failedLoginAttempts = 3
    ∧ (login env0 (some acct10) "a@x.com" "pw" "ua" "m" "f" 600000).2
      ≠ some acct10 :=
  ⟨by decide, by decide, by decide, by decide⟩

end FypAuth
